import Mathlib

/-!
Verification of the IT-admin agent service (`agents/it-admin`): a shallow
embedding of the agentic tool-calling loop in `app.py` (the `/chat` handler)
and of the mock diagnostics backend in `tools/__init__.py`, followed by
theorems settling the specified properties.

Modelling conventions:
* JSON values are the inductive `Json` below; Python dicts keep insertion
  order as ordered field lists.
* Timestamps (`datetime.utcnow()` and values derived from it by
  `timedelta`) are modelled as integer minute counts `now : Int`;
  `isoformat` strings compare exactly like the underlying times for a fixed
  `now`, so ordering claims are unaffected.
* `random.randint(lo, hi)` is modelled by `randint lo hi g i` where
  `g : Nat → Nat` is an arbitrary draw sequence and `i` the index of the
  draw inside the current handler call; every value `lo + (g i % (hi-lo+1))`
  with `lo ≤ hi` ranges exactly over the interval, so quantifying over `g`
  quantifies over all outcomes of the injected randomness.
* Python floats appearing in the mock metric generators are modelled as
  exact rationals (`0.04 = 1/25`, `2.5 = 5/2`, `int(x)` as `⌊x⌋`,
  `round(x, 2)` as rounding to an exact multiple of `1/100`); no claim
  depends on float rounding noise.
-/

namespace ITAdmin

/-- JSON value (Python dict/list/str/number/bool/None), with dicts as
ordered association lists, matching insertion order of the source. -/
inductive Json where
  | null
  | str (s : String)
  | num (q : ℚ)
  | bool (b : Bool)
  | arr (elems : List Json)
  | obj (fields : List (String × Json))

/-- Lookup of a key in an ordered field list (Python dict access). -/
def jsonLookup : List (String × Json) → String → Option Json
  | [], _ => none
  | (k, v) :: rest, key => if k = key then some v else jsonLookup rest key

/-- `d.get(key)` on a JSON object; `none` on non-objects or missing keys. -/
def Json.getField : Json → String → Option Json
  | .obj fields, key => jsonLookup fields key
  | _, _ => none

/-- `random.randint lo hi` (both ends inclusive) fed from draw `g i`.
Exact for `lo ≤ hi`; the source never calls it with `hi < lo`. -/
def randint (lo hi : Int) (g : Nat → Nat) (i : Nat) : Int :=
  lo + Int.ofNat (g i % ((hi - lo).toNat + 1))

/-- Python `round(x, 2)`: round to a multiple of 1/100 (the half-even /
half-up difference at exact half-cent values is irrelevant to all claims). -/
def pyRound2 (q : ℚ) : ℚ := (round (q * 100) : ℤ) / 100

/-! ## Mock inventory (`MOCK_RESOURCES` in `tools/__init__.py`) -/

structure MockResource where
  type : String
  resource_group : String
  subscription : String
  region : String
  tags : Json
  config : Json
  upstream : List String
  downstream : List String

def MOCK_RESOURCES : List (String × MockResource) := [
  ("web-app-prod",
    { type := "container_app"
      resource_group := "rg-production"
      subscription := "prod-subscription"
      region := "eastus"
      tags := .obj [("environment", .str "production"), ("team", .str "platform"),
                    ("cost-center", .str "12345")]
      config := .obj [
        ("sku", .str "D4"),
        ("replicas", .obj [("min", .num 2), ("max", .num 10), ("current", .num 4)]),
        ("cpu", .str "2.0"),
        ("memory", .str "4Gi"),
        ("image", .str "myregistry.azurecr.io/webapp:v2.3.1"),
        ("ingress", .obj [("external", .bool true), ("targetPort", .num 8080)]),
        ("environment_variables", .arr [.str "DATABASE_URL", .str "REDIS_URL", .str "API_KEY"]),
        ("managed_identity", .bool true)]
      upstream := ["sql-db-main", "redis-cache-prod", "storage-prod"]
      downstream := ["api-gateway", "cdn-endpoint"] }),
  ("sql-db-main",
    { type := "sql_database"
      resource_group := "rg-production"
      subscription := "prod-subscription"
      region := "eastus"
      tags := .obj [("environment", .str "production"), ("team", .str "data"),
                    ("cost-center", .str "12345")]
      config := .obj [
        ("sku", .str "GP_Gen5_4"),
        ("tier", .str "GeneralPurpose"),
        ("max_size_gb", .num 256),
        ("current_size_gb", .num 127),
        ("backup_retention_days", .num 35),
        ("geo_redundant_backup", .bool true),
        ("connection_policy", .str "Default"),
        ("tls_version", .str "1.2")]
      upstream := []
      downstream := ["web-app-prod", "reporting-service", "etl-pipeline"] }),
  ("api-gateway",
    { type := "api_management"
      resource_group := "rg-production"
      subscription := "prod-subscription"
      region := "eastus"
      tags := .obj [("environment", .str "production"), ("team", .str "platform")]
      config := .obj [
        ("sku", .str "Premium"),
        ("capacity", .num 2),
        ("gateway_url", .str "https://api.contoso.com"),
        ("developer_portal", .bool true),
        ("virtual_network", .str "internal"),
        ("certificates", .num 3),
        ("apis", .num 12),
        ("products", .num 4)]
      upstream := ["web-app-prod", "auth-service"]
      downstream := ["mobile-app", "partner-integrations"] }),
  ("redis-cache-prod",
    { type := "redis_cache"
      resource_group := "rg-production"
      subscription := "prod-subscription"
      region := "eastus"
      tags := .obj [("environment", .str "production"), ("team", .str "platform")]
      config := .obj [
        ("sku", .str "Premium"),
        ("capacity", .num 1),
        ("family", .str "P"),
        ("shard_count", .num 2),
        ("tls_enabled", .bool true),
        ("non_ssl_port_enabled", .bool false),
        ("max_memory_policy", .str "volatile-lru")]
      upstream := []
      downstream := ["web-app-prod", "session-service"] }),
  ("storage-prod",
    { type := "storage_account"
      resource_group := "rg-production"
      subscription := "prod-subscription"
      region := "eastus"
      tags := .obj [("environment", .str "production"), ("team", .str "platform")]
      config := .obj [
        ("sku", .str "Standard_GRS"),
        ("kind", .str "StorageV2"),
        ("access_tier", .str "Hot"),
        ("https_only", .bool true),
        ("min_tls_version", .str "TLS1_2"),
        ("blob_public_access", .bool false),
        ("containers", .arr [.str "uploads", .str "exports", .str "backups", .str "logs"])]
      upstream := []
      downstream := ["web-app-prod", "backup-service", "log-analytics"] })]

/-- `resource_name in MOCK_RESOURCES` / `MOCK_RESOURCES[resource_name]`. -/
def findResource (name : String) : Option MockResource :=
  MOCK_RESOURCES.lookup name

/-! ## Tool handlers returning heterogeneous dict shapes (as `Json`) -/

/-- `get_system_config(resource_name, resource_type)`. -/
def get_system_config (resource_name resource_type : String) : Json :=
  match findResource resource_name with
  | some resource => .obj [
      ("resource_name", .str resource_name),
      ("resource_type", .str resource.type),
      ("region", .str resource.region),
      ("resource_group", .str resource.resource_group),
      ("configuration", resource.config),
      ("tags", resource.tags)]
  | none => .obj [
      ("resource_name", .str resource_name),
      ("resource_type", .str resource_type),
      ("region", .str "eastus"),
      ("resource_group", .str "rg-production"),
      ("configuration", .obj [
        ("status", .str "running"),
        ("sku", .str "Standard"),
        ("note", .str "Generic configuration - resource not found in detailed inventory")]),
      ("tags", .obj [("environment", .str "production")])]

/-- `check_dependencies(resource_name)`. -/
def check_dependencies (resource_name : String) : Json :=
  match findResource resource_name with
  | some resource => .obj [
      ("resource", .str resource_name),
      ("upstream_dependencies", .arr (resource.upstream.map .str)),
      ("downstream_dependencies", .arr (resource.downstream.map .str)),
      ("upstream_count", .num resource.upstream.length),
      ("downstream_count", .num resource.downstream.length)]
  | none => .obj [
      ("resource", .str resource_name),
      ("upstream_dependencies", .arr []),
      ("downstream_dependencies", .arr []),
      ("message", .str "Resource not found in dependency map")]

/-- `get_resource_details(resource_name)`; `now` is the current time in
minutes (`datetime.utcnow()`), timestamps rendered as minute counts. -/
def get_resource_details (now : Int) (resource_name : String) : Json :=
  match findResource resource_name with
  | some resource => .obj [
      ("resource_name", .str resource_name),
      ("resource_type", .str resource.type),
      ("resource_group", .str resource.resource_group),
      ("subscription", .str resource.subscription),
      ("region", .str resource.region),
      ("tags", resource.tags),
      ("provisioning_state", .str "Succeeded"),
      ("created_at", .num (now - 180 * 1440)),
      ("last_modified", .num (now - 120)),
      ("resource_id", .str ("/subscriptions/" ++ resource.subscription ++
        "/resourceGroups/" ++ resource.resource_group ++
        "/providers/Microsoft.App/containerApps/" ++ resource_name))]
  | none => .obj [
      ("resource_name", .str resource_name),
      ("error", .str "Resource not found in inventory"),
      ("suggestion", .str "Check resource name spelling or verify the resource exists")]

/-! ## `get_service_health` -/

structure IncidentUpdate where
  time : Int
  message : String

structure Incident where
  incident_id : String
  title : String
  status : String
  start_time : Int
  description : String
  impacted_services : List String
  updates : List IncidentUpdate

structure ServiceHealth where
  service : String
  region : String
  status : String
  active_incidents : List Incident
  /-- the `"message"` key, present only in the healthy branch -/
  message : Option String

/-- `get_service_health(service, region="eastus")`. -/
def get_service_health (now : Int) (service region : String) : ServiceHealth :=
  if service = "Azure SQL" ∧ region = "eastus" then
    { service := service
      region := region
      status := "degraded"
      active_incidents := [
        { incident_id := "SQL-2024-0215"
          title := "Intermittent connectivity issues"
          status := "investigating"
          start_time := now - 2 * 60
          description := "Some customers may experience intermittent connection timeouts to Azure SQL databases in East US region."
          impacted_services := ["Azure SQL Database", "SQL Managed Instance"]
          updates := [
            { time := now - 30
              message := "Engineering team has identified the root cause and is implementing a fix." }] }]
      message := none }
  else
    { service := service
      region := region
      status := "healthy"
      active_incidents := []
      message := some ("No known issues affecting " ++ service ++ " in " ++ region) }

/-! ## `_generate_metrics` / `get_system_metrics` -/

structure CpuMetrics where
  current_percent : Int
  average_percent : Int
  max_percent : Int
  min_percent : Int
  status : String

structure MemoryMetrics where
  current_percent : Int
  average_percent : Int
  used_gb : ℚ
  available_gb : ℚ
  status : String

structure LatencyMetrics where
  p50_ms : Int
  p95_ms : ℚ
  p99_ms : Int
  average_ms : ℚ
  status : String

structure RequestMetrics where
  total : Int
  successful : Int
  failed : Int
  rate_per_second : Int

structure ErrorMetrics where
  total : Int
  rate_percent : ℚ
  by_type_500 : Int
  by_type_502 : Int
  by_type_503 : Int
  by_type_timeout : Int
  status : String

/-- The `"data"` sub-dict; `none` models an absent key. -/
structure MetricsData where
  cpu : Option CpuMetrics
  memory : Option MemoryMetrics
  latency : Option LatencyMetrics
  requests : Option RequestMetrics
  errors : Option ErrorMetrics

structure Metrics where
  resource : String
  time_range : String
  collected_at : Int
  data : MetricsData

/-- `_generate_metrics(resource_name, metric_type, time_range)`; draws are
consumed from `g` in source order (cpu, memory, requests, errors). -/
def _generate_metrics (now : Int) (g : Nat → Nat)
    (resource_name metric_type time_range : String) : Metrics :=
  let has_cpu_issue := resource_name = "web-app-prod"
  let has_latency_issue := resource_name = "sql-db-main"
  let has_error_spike := resource_name = "api-gateway"
  let i0 : Nat := 0
  let cpuBlock :=
    if metric_type = "cpu" ∨ metric_type = "all" then
      let base_cpu : Int := if has_cpu_issue then 85 else 35
      (some { current_percent := base_cpu + randint (-5) 10 g i0
              average_percent := base_cpu - 5
              max_percent := base_cpu + 15
              min_percent := base_cpu - 20
              status := if has_cpu_issue then "critical" else "healthy" }, i0 + 1)
    else (none, i0)
  let i1 := cpuBlock.2
  let memBlock :=
    if metric_type = "memory" ∨ metric_type = "all" then
      let base_mem : Int := if has_cpu_issue then 70 else 45
      (some { current_percent := base_mem + randint (-5) 10 g i1
              average_percent := base_mem - 3
              used_gb := pyRound2 ((base_mem : ℚ) * (1 / 25))
              available_gb := pyRound2 (((100 : ℚ) - (base_mem : ℚ)) * (1 / 25))
              status := if has_cpu_issue then "warning" else "healthy" }, i1 + 1)
    else (none, i1)
  let i2 := memBlock.2
  let latBlock : Option LatencyMetrics :=
    if metric_type = "latency" ∨ metric_type = "all" then
      let base_latency : Int := if has_latency_issue then 850 else 45
      some { p50_ms := base_latency
             p95_ms := (base_latency : ℚ) * (5 / 2)
             p99_ms := base_latency * 4
             average_ms := (base_latency : ℚ) * (6 / 5)
             status := if has_latency_issue then "critical" else "healthy" }
    else none
  let reqBlock :=
    if metric_type = "requests" ∨ metric_type = "all" then
      (some { total := randint 50000 150000 g i2
              successful := randint 45000 145000 g (i2 + 1)
              failed := if has_error_spike then randint 100 2000 g (i2 + 2)
                        else randint 10 100 g (i2 + 2)
              rate_per_second := randint 50 200 g (i2 + 3) }, i2 + 4)
    else (none, i2)
  let i3 := reqBlock.2
  let errBlock : Option ErrorMetrics :=
    if metric_type = "errors" ∨ metric_type = "all" then
      let error_count : Int :=
        if has_error_spike then randint 500 2000 g i3 else randint 5 50 g i3
      some { total := error_count
             rate_percent := pyRound2 ((error_count : ℚ) / 1000 * 100)
             by_type_500 := ⌊(error_count : ℚ) * (2 / 5)⌋
             by_type_502 := ⌊(error_count : ℚ) * (3 / 10)⌋
             by_type_503 := ⌊(error_count : ℚ) * (1 / 5)⌋
             by_type_timeout := ⌊(error_count : ℚ) * (1 / 10)⌋
             status := if has_error_spike then "critical" else "healthy" }
    else none
  { resource := resource_name
    time_range := time_range
    collected_at := now
    data := { cpu := cpuBlock.1, memory := memBlock.1, latency := latBlock
              requests := reqBlock.1, errors := errBlock } }

/-- `get_system_metrics(resource_name, metric_type="all", time_range="1h")`. -/
def get_system_metrics (now : Int) (g : Nat → Nat)
    (resource_name metric_type time_range : String) : Metrics :=
  _generate_metrics now g resource_name metric_type time_range

/-! ## `_generate_logs` / `get_recent_logs` -/

structure LogEntry where
  timestamp : Int
  severity : String
  message : String
  source : String
  correlation_id : String

/-- `(message, source)` pairs of `error_templates`. -/
def error_templates : List (String × String) := [
  ("Connection to database timed out after 30s", "sql-db-main"),
  ("Redis connection pool exhausted, waiting for available connection", "redis-cache-prod"),
  ("Request failed with status 503: Service Unavailable", "api-gateway"),
  ("Out of memory: Container killed by OOM killer", "web-app-prod"),
  ("SSL certificate validation failed for upstream", "api-gateway"),
  ("Rate limit exceeded for client IP 203.0.113.42", "api-gateway")]

def warning_templates : List (String × String) := [
  ("High CPU utilization detected (>80%)", "web-app-prod"),
  ("Query execution time exceeded threshold (>5s)", "sql-db-main"),
  ("Cache miss rate above normal (>30%)", "redis-cache-prod"),
  ("Slow response detected from downstream service", "web-app-prod"),
  ("Certificate expires in 14 days", "api-gateway"),
  ("Storage account approaching 80% capacity", "storage-prod")]

def info_templates : List (String × String) := [
  ("Successfully scaled to 4 replicas", "web-app-prod"),
  ("Deployment completed: v2.3.1", "web-app-prod"),
  ("Database backup completed successfully", "sql-db-main"),
  ("Health check passed", "web-app-prod"),
  ("Configuration reloaded", "api-gateway")]

/-- `random.choice(l)` for nonempty `l`, fed from draw `g i`. -/
def pyChoice (l : List (String × String × String)) (g : Nat → Nat) (i : Nat) :
    String × String × String :=
  l.getD (g i % l.length) ("", "", "")

/-- ordering key of the sort in `_generate_logs` (timestamp descending) -/
def logAfter (a b : LogEntry) : Prop := b.timestamp ≤ a.timestamp

instance : DecidableRel logAfter :=
  fun a b => inferInstanceAs (Decidable (b.timestamp ≤ a.timestamp))

instance : IsTotal LogEntry logAfter := ⟨fun a b => le_total b.timestamp a.timestamp⟩

instance : IsTrans LogEntry logAfter := ⟨fun _ _ _ hab hbc => le_trans hbc hab⟩

/-- Python slice `l[:k]` (the source only uses it with `k = limit`). -/
def pySliceTo {α : Type} (l : List α) (k : Int) : List α :=
  if 0 ≤ k then l.take k.toNat else l.take (l.length - (-k).toNat)

/-- The generation loop body of `_generate_logs`: one iteration draws a
template (when any is available), a timestamp offset and a correlation id. -/
def genLogEntries (now : Int) (g : Nat → Nat)
    (templates : List (String × String × String)) (resource_name : String) :
    Nat → Nat → List LogEntry
  | 0, _ => []
  | k + 1, i =>
    if templates.isEmpty then
      { timestamp := now - randint 1 360 g i
        severity := "info"
        message := "No logs available"
        source := resource_name
        correlation_id := "corr-" ++ toString (randint 10000 99999 g (i + 1)) } ::
      genLogEntries now g templates resource_name k (i + 2)
    else
      let t := pyChoice templates g i
      { timestamp := now - randint 1 360 g (i + 1)
        severity := t.2.1
        message := t.1
        source := t.2.2
        correlation_id := "corr-" ++ toString (randint 10000 99999 g (i + 2)) } ::
      genLogEntries now g templates resource_name k (i + 3)

/-- `_generate_logs(resource_name, severity, limit)`. -/
def _generate_logs (now : Int) (g : Nat → Nat)
    (resource_name severity : String) (limit : Int) : List LogEntry :=
  let templates_to_use : List (String × String × String) :=
    (if severity = "all" ∨ severity = "error" then
      error_templates.map (fun p => (p.1, "error", p.2)) else []) ++
    (if severity = "all" ∨ severity = "warning" then
      warning_templates.map (fun p => (p.1, "warning", p.2)) else []) ++
    (if severity = "all" ∨ severity = "info" then
      info_templates.map (fun p => (p.1, "info", p.2)) else [])
  let templates_to_use :=
    if resource_name ≠ "all" then
      templates_to_use.filter
        (fun t => t.2.2 == resource_name || t.2.2 == "web-app-prod")
    else templates_to_use
  let count := (min limit ((templates_to_use.length : Int) * 3)).toNat
  let entries := genLogEntries now g templates_to_use resource_name count 0
  pySliceTo (List.insertionSort logAfter entries) limit

structure LogsResult where
  resource : String
  severity_filter : String
  count : Nat
  logs : List LogEntry

/-- `get_recent_logs(resource_name, severity="all", limit=20)`. -/
def get_recent_logs (now : Int) (g : Nat → Nat)
    (resource_name severity : String) (limit : Int) : LogsResult :=
  let logs := _generate_logs now g resource_name severity limit
  { resource := resource_name
    severity_filter := severity
    count := logs.length
    logs := logs }

/-! ## `_generate_changes` / `get_recent_changes` -/

structure ChangeTemplate where
  type : String
  description : String
  user : String
  details : Json

structure Change where
  timestamp : Int
  resource : String
  type : String
  description : String
  user : String
  details : Json

def change_templates : List ChangeTemplate := [
  { type := "deployment"
    description := "Deployed new version v2.3.1"
    user := "deploy-pipeline@contoso.com"
    details := .obj [("old_version", .str "v2.3.0"), ("new_version", .str "v2.3.1"),
                     ("replicas", .num 4)] },
  { type := "configuration"
    description := "Updated environment variable DATABASE_TIMEOUT"
    user := "john.smith@contoso.com"
    details := .obj [("setting", .str "DATABASE_TIMEOUT"), ("old_value", .str "30"),
                     ("new_value", .str "60")] },
  { type := "scaling"
    description := "Auto-scaled from 2 to 4 replicas"
    user := "system"
    details := .obj [("trigger", .str "cpu_threshold"), ("old_replicas", .num 2),
                     ("new_replicas", .num 4)] },
  { type := "configuration"
    description := "Increased max connections pool size"
    user := "jane.doe@contoso.com"
    details := .obj [("setting", .str "MAX_POOL_SIZE"), ("old_value", .str "100"),
                     ("new_value", .str "200")] },
  { type := "security"
    description := "Rotated managed identity credentials"
    user := "security-automation@contoso.com"
    details := .obj [("credential_type", .str "managed_identity")] }]

def changeAfter (a b : Change) : Prop := b.timestamp ≤ a.timestamp

instance : DecidableRel changeAfter :=
  fun a b => inferInstanceAs (Decidable (b.timestamp ≤ a.timestamp))

instance : IsTotal Change changeAfter := ⟨fun a b => le_total b.timestamp a.timestamp⟩

instance : IsTrans Change changeAfter := ⟨fun _ _ _ hab hbc => le_trans hbc hab⟩

/-- `_generate_changes(resource_name, days)`: the i-th generated change uses
template i and draws a day offset and an hour offset. -/
def _generate_changes (now : Int) (g : Nat → Nat)
    (resource_name : String) (days : Int) : List Change :=
  let count := (min days (change_templates.length : Int)).toNat
  let changes := (change_templates.take count).enum.map (fun p =>
    { timestamp := now - (randint 0 days g (2 * p.1) * 1440 +
                          randint 0 23 g (2 * p.1 + 1) * 60)
      resource := resource_name
      type := p.2.type
      description := p.2.description
      user := p.2.user
      details := p.2.details })
  List.insertionSort changeAfter changes

structure ChangesResult where
  resource : String
  time_period_days : Int
  change_count : Nat
  changes : List Change

/-- `get_recent_changes(resource_name, days=7)`. -/
def get_recent_changes (now : Int) (g : Nat → Nat)
    (resource_name : String) (days : Int) : ChangesResult :=
  let changes := _generate_changes now g resource_name days
  { resource := resource_name
    time_period_days := days
    change_count := changes.length
    changes := changes }

/-! ## JSON rendering of the typed tool results (the dict shapes the Python
handlers actually return, used by the loop when serializing a result) -/

def optJsonField {α : Type} (k : String) (f : α → Json) : Option α → List (String × Json)
  | some a => [(k, f a)]
  | none => []

def incidentToJson (inc : Incident) : Json :=
  .obj [
    ("incident_id", .str inc.incident_id),
    ("title", .str inc.title),
    ("status", .str inc.status),
    ("start_time", .num inc.start_time),
    ("description", .str inc.description),
    ("impacted_services", .arr (inc.impacted_services.map .str)),
    ("updates", .arr (inc.updates.map (fun u =>
      .obj [("time", .num u.time), ("message", .str u.message)])))]

def serviceHealthToJson (h : ServiceHealth) : Json :=
  .obj ([
    ("service", .str h.service),
    ("region", .str h.region),
    ("status", .str h.status),
    ("active_incidents", .arr (h.active_incidents.map incidentToJson))] ++
    optJsonField "message" .str h.message)

def cpuToJson (c : CpuMetrics) : Json :=
  .obj [("current_percent", .num c.current_percent),
        ("average_percent", .num c.average_percent),
        ("max_percent", .num c.max_percent),
        ("min_percent", .num c.min_percent),
        ("status", .str c.status)]

def memoryToJson (m : MemoryMetrics) : Json :=
  .obj [("current_percent", .num m.current_percent),
        ("average_percent", .num m.average_percent),
        ("used_gb", .num m.used_gb),
        ("available_gb", .num m.available_gb),
        ("status", .str m.status)]

def latencyToJson (l : LatencyMetrics) : Json :=
  .obj [("p50_ms", .num l.p50_ms), ("p95_ms", .num l.p95_ms),
        ("p99_ms", .num l.p99_ms), ("average_ms", .num l.average_ms),
        ("status", .str l.status)]

def requestsToJson (r : RequestMetrics) : Json :=
  .obj [("total", .num r.total), ("successful", .num r.successful),
        ("failed", .num r.failed), ("rate_per_second", .num r.rate_per_second)]

def errorsToJson (e : ErrorMetrics) : Json :=
  .obj [("total", .num e.total), ("rate_percent", .num e.rate_percent),
        ("by_type", .obj [("500", .num e.by_type_500), ("502", .num e.by_type_502),
                          ("503", .num e.by_type_503), ("timeout", .num e.by_type_timeout)]),
        ("status", .str e.status)]

def metricsToJson (m : Metrics) : Json :=
  .obj [("resource", .str m.resource),
        ("time_range", .str m.time_range),
        ("collected_at", .num m.collected_at),
        ("data", .obj (
          optJsonField "cpu" cpuToJson m.data.cpu ++
          optJsonField "memory" memoryToJson m.data.memory ++
          optJsonField "latency" latencyToJson m.data.latency ++
          optJsonField "requests" requestsToJson m.data.requests ++
          optJsonField "errors" errorsToJson m.data.errors))]

def logEntryToJson (e : LogEntry) : Json :=
  .obj [("timestamp", .num e.timestamp), ("severity", .str e.severity),
        ("message", .str e.message), ("source", .str e.source),
        ("correlation_id", .str e.correlation_id)]

def logsResultToJson (r : LogsResult) : Json :=
  .obj [("resource", .str r.resource), ("severity_filter", .str r.severity_filter),
        ("count", .num r.count), ("logs", .arr (r.logs.map logEntryToJson))]

def changeToJson (c : Change) : Json :=
  .obj [("timestamp", .num c.timestamp), ("resource", .str c.resource),
        ("type", .str c.type), ("description", .str c.description),
        ("user", .str c.user), ("details", c.details)]

def changesResultToJson (r : ChangesResult) : Json :=
  .obj [("resource", .str r.resource), ("time_period_days", .num r.time_period_days),
        ("change_count", .num r.change_count),
        ("changes", .arr (r.changes.map changeToJson))]

/-! ## The agentic loop of `/chat` in `app.py` -/

/-- A tool-call arguments string, represented by its `json.loads` outcome:
every string either parses to some JSON value or makes `json.loads` raise. -/
inductive RawArgs where
  | wellFormed (j : Json)
  | malformed (s : String)

/-- A `ToolRequest` returned by the model (`tc.id`, `tc.function.name`,
`tc.function.arguments`). -/
structure ToolCallReq where
  id : String
  name : String
  arguments : RawArgs

/-- Message content; serialization (`json.dumps`) is represented
symbolically, which is injective up to whitespace and never inspected. -/
inductive MsgContent where
  | text (s : String)
  | textWithContext (s : String) (ctx : Json)
  | jsonDump (j : Json)

structure Message where
  role : String
  content : MsgContent
  tool_call_id : Option String
  tool_calls : Option (List ToolCallReq)

/-- Python exceptions that can escape the loop body. -/
inductive PyError where
  | jsonDecode (s : String)
  | typeError (s : String)
  | validation
deriving DecidableEq

def parseArgs : RawArgs → Except PyError Json
  | .wellFormed j => .ok j
  | .malformed s => .error (.jsonDecode s)

/-- keys of `TOOL_FUNCTIONS` in `app.py` -/
def registryNames : List String :=
  ["get_system_config", "get_system_metrics", "get_recent_logs",
   "get_service_health", "get_recent_changes", "check_dependencies",
   "get_resource_details"]

/-- extract a required string keyword argument -/
def reqStr (fields : List (String × Json)) (k : String) : Except PyError String :=
  match jsonLookup fields k with
  | some (.str s) => .ok s
  | some _ => .error (.typeError k)
  | none => .error (.typeError k)

/-- extract an optional string keyword argument with a default -/
def optStr (fields : List (String × Json)) (k d : String) : Except PyError String :=
  match jsonLookup fields k with
  | some (.str s) => .ok s
  | some _ => .error (.typeError k)
  | none => .ok d

/-- extract an optional integer keyword argument with a default -/
def optInt (fields : List (String × Json)) (k : String) (d : Int) : Except PyError Int :=
  match jsonLookup fields k with
  | some (.num q) => if q.den = 1 then .ok q.num else .error (.typeError k)
  | some _ => .error (.typeError k)
  | none => .ok d

/-- `f(**kwargs)` rejects unexpected keyword arguments -/
def checkKeys (fields : List (String × Json)) (allowed : List String) :
    Except PyError Unit :=
  if fields.all (fun p => allowed.contains p.1) then .ok ()
  else .error (.typeError "unexpected keyword argument")

/-- `TOOL_FUNCTIONS[name](**args)`: bind the parsed JSON arguments to the
handler signature (defaults as in `tools/__init__.py`) and run it. Binding
failures are Python `TypeError`s; mistyped-but-bindable values (which CPython
would pass through dynamically) are also modelled as `TypeError`, a
distinction no claim depends on. -/
def bindCall (now : Int) (g : Nat → Nat) (name : String) (args : Json) :
    Except PyError Json :=
  match args with
  | .obj fields =>
    if name = "get_system_config" then do
      let _ ← checkKeys fields ["resource_name", "resource_type"]
      let rn ← reqStr fields "resource_name"
      let rt ← reqStr fields "resource_type"
      .ok (get_system_config rn rt)
    else if name = "get_system_metrics" then do
      let _ ← checkKeys fields ["resource_name", "metric_type", "time_range"]
      let rn ← reqStr fields "resource_name"
      let mt ← optStr fields "metric_type" "all"
      let tr ← optStr fields "time_range" "1h"
      .ok (metricsToJson (get_system_metrics now g rn mt tr))
    else if name = "get_recent_logs" then do
      let _ ← checkKeys fields ["resource_name", "severity", "limit"]
      let rn ← reqStr fields "resource_name"
      let sev ← optStr fields "severity" "all"
      let lim ← optInt fields "limit" 20
      .ok (logsResultToJson (get_recent_logs now g rn sev lim))
    else if name = "get_service_health" then do
      let _ ← checkKeys fields ["service", "region"]
      let sv ← reqStr fields "service"
      let rg ← optStr fields "region" "eastus"
      .ok (serviceHealthToJson (get_service_health now sv rg))
    else if name = "get_recent_changes" then do
      let _ ← checkKeys fields ["resource_name", "days"]
      let rn ← reqStr fields "resource_name"
      let ds ← optInt fields "days" 7
      .ok (changesResultToJson (get_recent_changes now g rn ds))
    else if name = "check_dependencies" then do
      let _ ← checkKeys fields ["resource_name"]
      let rn ← reqStr fields "resource_name"
      .ok (check_dependencies rn)
    else if name = "get_resource_details" then do
      let _ ← checkKeys fields ["resource_name"]
      let rn ← reqStr fields "resource_name"
      .ok (get_resource_details now rn)
    else .error (.typeError "not a registered tool")
  | _ => .error (.typeError "argument unpacking requires a mapping")

/-- `{"error": f"Unknown tool: {function_name}"}` -/
def unknownToolResult (name : String) : Json :=
  .obj [("error", .str ("Unknown tool: " ++ name))]

/-- One tool-call step of the loop body (lines 226-239 of `app.py`): parse
the arguments, dispatch by name (unknown names yield the error-shaped
result without raising), then build the pydantic `ToolCall` trace entry,
whose `arguments: Dict` field rejects non-object argument values. Returns
`(parsed arguments, result)`. -/
def runToolCall (now : Int) (g : Nat → Nat) (tc : ToolCallReq) :
    Except PyError (Json × Json) :=
  match parseArgs tc.arguments with
  | .error e => .error e
  | .ok args =>
    let res : Except PyError Json :=
      if tc.name ∈ registryNames then bindCall now g tc.name args
      else .ok (unknownToolResult tc.name)
    match res with
    | .error e => .error e
    | .ok result =>
      match args with
      | .obj _ => .ok (args, result)
      | _ => .error .validation

/-- `SYSTEM_PROMPT` from `app.py`. -/
def SYSTEM_PROMPT : String :=
  "You are an expert IT Administrator troubleshooting agent. Your role is to help diagnose and resolve infrastructure issues.\n\nWhen a user reports a problem:\n1. First gather information about the affected system using available tools\n2. Analyze metrics, logs, and configuration to identify potential issues\n3. Check for recent changes that might have caused the problem\n4. Provide a clear diagnosis with supporting evidence\n5. Suggest remediation steps\n\nAvailable tools:\n- get_system_config: Get configuration details for Azure resources\n- get_system_metrics: Get CPU, memory, latency, and other metrics\n- get_recent_logs: Get recent log entries from a system\n- get_service_health: Check if there are known Azure service issues\n- get_recent_changes: Get recent deployments and configuration changes\n- check_dependencies: List services this resource depends on\n- get_resource_details: Get detailed information about an Azure resource\n\nAlways be thorough in your investigation. Use multiple tools to build a complete picture.\nExplain your reasoning as you go. Cite specific data from tool outputs.\n\nIf you cannot determine the root cause, suggest what additional information would help."

def fallbackReply : String := "I apologize, but I couldn\x27t generate a response."

def budgetReply : String :=
  "I\x27ve gathered a lot of information but reached my processing limit. Here\x27s what I found so far based on the tool calls."

def systemMessage : Message := ⟨"system", .text SYSTEM_PROMPT, none, none⟩

/-- Python truthiness on the values relevant here (`request.context` is a
dict or `None` after pydantic validation). -/
def jsonTruthy : Json → Bool
  | .null => false
  | .obj [] => false
  | .arr [] => false
  | .str "" => false
  | .num q => q != 0
  | .bool b => b
  | _ => true

/-- Python `a or b` on an optional string (`None` and `""` are falsy). -/
def pyOrStr (o : Option String) (d : String) : String :=
  match o with
  | none => d
  | some s => if s = "" then d else s

structure ChatRequest where
  message : String
  conversation_id : Option String
  context : Option Json

/-- The user message appended by lines 174-182 of `app.py` (the serialized
context, when truthy, is concatenated onto the same message). -/
def userMessageOf (req : ChatRequest) : Message :=
  match req.context with
  | some c =>
    if jsonTruthy c then ⟨"user", .textWithContext req.message c, none, none⟩
    else ⟨"user", .text req.message, none, none⟩
  | none => ⟨"user", .text req.message, none, none⟩

/-- The assistant message returned by one model call: optional content plus
a (possibly empty) list of tool requests; `tool_calls = []` also covers
`None` (both are falsy). -/
structure AsstMsg where
  content : Option String
  tool_calls : List ToolCallReq

def assistantWithCalls (m : AsstMsg) : Message :=
  ⟨"assistant", .text (m.content.getD ""), none, some m.tool_calls⟩

def toolMessage (callId : String) (result : Json) : Message :=
  ⟨"tool", .jsonDump result, some callId, none⟩

def finalAssistant (resp : String) : Message :=
  ⟨"assistant", .text resp, none, none⟩

/-- pydantic `ToolCall` trace entry (`tool_calls_made` item). -/
structure TraceItem where
  tool_name : String
  arguments : Json
  result : Json

structure ChatResponse where
  response : String
  conversation_id : String
  tool_calls : List TraceItem

/-- Loop-carried state: the conversation message list, the accumulated tool
trace, and (instrumentation) the number of model calls made so far. -/
structure LoopState where
  conv : List Message
  trace : List TraceItem
  calls : Nat

/-- Execute the tool calls of one batch in order; on the first failing call
the exception escapes, keeping the messages appended so far. -/
def execBatch (now : Int) (g : Nat → Nat) :
    LoopState → List ToolCallReq → LoopState × Option PyError
  | st, [] => (st, none)
  | st, tc :: rest =>
    match runToolCall now g tc with
    | .error e => (st, some e)
    | .ok (args, result) =>
      execBatch now g
        { st with conv := st.conv ++ [toolMessage tc.id result]
                  trace := st.trace ++ [⟨tc.name, args, result⟩] } rest

inductive LoopOutcome where
  | final (resp : String)
  | budget
  | raised (e : PyError)

/-- The `while iteration < max_iterations` loop of `chat`: `fuel` is the
remaining iteration budget (starting at 10), `i` indexes the model response
script (the model is an external oracle: `script i` is whatever message the
i-th `chat.completions.create` call returns). -/
def chatLoop (now : Int) (g : Nat → Nat) (script : Nat → AsstMsg) :
    Nat → Nat → LoopState → LoopOutcome × LoopState
  | 0, _, st => (.budget, st)
  | fuel + 1, i, st =>
    let m := script i
    let st1 : LoopState := { st with calls := st.calls + 1 }
    match m.tool_calls with
    | [] =>
      let resp := pyOrStr m.content fallbackReply
      (.final resp, { st1 with conv := st1.conv ++ [finalAssistant resp] })
    | calls =>
      let st2 := { st1 with conv := st1.conv ++ [assistantWithCalls m] }
      match execBatch now g st2 calls with
      | (st3, some e) => (.raised e, st3)
      | (st3, none) => chatLoop now g script fuel (i + 1) st3

/-- the global `conversations` dict -/
abbrev Store := List (String × List Message)

def storeSet (st : Store) (k : String) (v : List Message) : Store :=
  (k, v) :: st.eraseP (fun p => p.1 == k)

/-- `f"conv_{datetime.utcnow().strftime(...)}"`: a fresh identifier derived
from the current time. -/
def freshConvId (now : Int) : String := "conv_" ++ toString now

structure ChatOutcome where
  /-- `.ok` is the 200 response; `.error e` is the exception reaching the
  outer `except`, i.e. an HTTP 500 aborting the turn. -/
  result : Except PyError ChatResponse
  /-- the global conversation store after the call (it is mutated in place,
  so it also reflects messages appended before an exception) -/
  store : Store
  /-- number of model invocations performed -/
  callsMade : Nat

/-- `conversation_id = request.conversation_id or f"conv_{...}"`: the
identifier the turn runs under. A given non-empty id is used as-is (known
or not); a fresh one is minted only when no id (or an empty id) is given. -/
def chatCid (now : Int) (req : ChatRequest) : String :=
  pyOrStr req.conversation_id (freshConvId now)

/-- `if conversation_id not in conversations: seed with the system prompt`. -/
def initialConv (store : Store) (cid : String) : List Message :=
  match store.lookup cid with
  | some c => c
  | none => [systemMessage]

/-- the loop-entry state: resolved conversation plus the appended user
message, empty trace, no model calls made yet -/
def chatInit (now : Int) (store : Store) (req : ChatRequest) : LoopState :=
  ⟨initialConv store (chatCid now req) ++ [userMessageOf req], [], 0⟩

/-- Build the HTTP-level outcome from the loop result: a final content
response and the budget exit both return 200 payloads; an escaped exception
reaches the outer `except` and becomes a 500. The (in-place mutated)
conversation is written back in every case. -/
def finishChat (store : Store) (cid : String) :
    LoopOutcome × LoopState → ChatOutcome
  | (.final resp, st) => ⟨.ok ⟨resp, cid, st.trace⟩, storeSet store cid st.conv, st.calls⟩
  | (.budget, st) => ⟨.ok ⟨budgetReply, cid, st.trace⟩, storeSet store cid st.conv, st.calls⟩
  | (.raised e, st) => ⟨.error e, storeSet store cid st.conv, st.calls⟩

/-- The `/chat` handler (`chat` in `app.py`). -/
def chat (now : Int) (g : Nat → Nat) (script : Nat → AsstMsg)
    (store : Store) (req : ChatRequest) : ChatOutcome :=
  finishChat store (chatCid now req)
    (chatLoop now g script 10 0 (chatInit now store req))

/-! ## Derived notions about the loop, used to state the claims -/

/-- whether one tool call of a batch executes without raising -/
def callOk (now : Int) (g : Nat → Nat) (tc : ToolCallReq) : Bool :=
  match runToolCall now g tc with
  | .ok _ => true
  | .error _ => false

/-- the parsed arguments of a successfully executed tool call -/
def callArgs (now : Int) (g : Nat → Nat) (tc : ToolCallReq) : Json :=
  match runToolCall now g tc with
  | .ok p => p.1
  | .error _ => .null

/-- the result of a successfully executed tool call -/
def callResult (now : Int) (g : Nat → Nat) (tc : ToolCallReq) : Json :=
  match runToolCall now g tc with
  | .ok p => p.2
  | .error _ => .null

/-- the tool-role messages one batch appends, in request order -/
def batchToolMessages (now : Int) (g : Nat → Nat) (calls : List ToolCallReq) :
    List Message :=
  calls.map (fun tc => toolMessage tc.id (callResult now g tc))

/-- the trace entries one batch appends, in request order -/
def batchTrace (now : Int) (g : Nat → Nat) (calls : List ToolCallReq) :
    List TraceItem :=
  calls.map (fun tc => ⟨tc.name, callArgs now g tc, callResult now g tc⟩)

/-- a model response that requests at least one tool call, all of which
execute without raising -/
def goodBatch (now : Int) (g : Nat → Nat) (m : AsstMsg) : Prop :=
  m.tool_calls ≠ [] ∧ ∀ tc ∈ m.tool_calls, callOk now g tc = true

/-- the state change of one tool-request iteration of the loop -/
def stepState (now : Int) (g : Nat → Nat) (m : AsstMsg) (st : LoopState) :
    LoopState :=
  { conv := st.conv ++ assistantWithCalls m :: batchToolMessages now g m.tool_calls
    trace := st.trace ++ batchTrace now g m.tool_calls
    calls := st.calls + 1 }

/-- the state after `k` consecutive tool-request iterations starting at
script position `i` -/
def runBatches (now : Int) (g : Nat → Nat) (script : Nat → AsstMsg) :
    Nat → Nat → LoopState → LoopState
  | _, 0, st => st
  | i, k + 1, st =>
    runBatches now g script (i + 1) k (stepState now g (script i) st)

/-! ## Helper lemmas about the loop -/

theorem runToolCall_eq_of_ok (now : Int) (g : Nat → Nat) (tc : ToolCallReq)
    (h : callOk now g tc = true) :
    runToolCall now g tc = .ok (callArgs now g tc, callResult now g tc) := by
  unfold callOk at h
  unfold callArgs callResult
  cases hr : runToolCall now g tc with
  | ok p => simp [hr]
  | error e => rw [hr] at h; simp at h

theorem execBatch_ok (now : Int) (g : Nat → Nat) (calls : List ToolCallReq)
    (st : LoopState) (h : ∀ tc ∈ calls, callOk now g tc = true) :
    execBatch now g st calls =
      ({ conv := st.conv ++ batchToolMessages now g calls
         trace := st.trace ++ batchTrace now g calls
         calls := st.calls }, none) := by
  induction calls generalizing st with
  | nil => simp [execBatch, batchToolMessages, batchTrace]
  | cons tc rest ih =>
    have htc : callOk now g tc = true := h tc (by simp)
    simp only [execBatch, runToolCall_eq_of_ok now g tc htc]
    rw [ih _ (fun tc' h' => h tc' (by simp [h']))]
    simp [batchToolMessages, batchTrace]

theorem execBatch_calls (now : Int) (g : Nat → Nat) (calls : List ToolCallReq)
    (st : LoopState) : (execBatch now g st calls).1.calls = st.calls := by
  induction calls generalizing st with
  | nil => simp [execBatch]
  | cons tc rest ih =>
    rw [execBatch]
    cases hr : runToolCall now g tc with
    | ok p => exact ih _
    | error e => simp

theorem execBatch_conv_prefix (now : Int) (g : Nat → Nat)
    (calls : List ToolCallReq) (st : LoopState) :
    ∃ rest, (execBatch now g st calls).1.conv = st.conv ++ rest := by
  induction calls generalizing st with
  | nil => exact ⟨[], by simp [execBatch]⟩
  | cons tc rest ih =>
    rw [execBatch]
    cases hr : runToolCall now g tc with
    | ok p =>
      obtain ⟨r, hr'⟩ := ih { st with
        conv := st.conv ++ [toolMessage tc.id p.2]
        trace := st.trace ++ [⟨tc.name, p.1, p.2⟩] }
      exact ⟨[toolMessage tc.id p.2] ++ r, by simpa using hr'⟩
    | error e => exact ⟨[], by simp⟩

theorem chatLoop_step_good (now : Int) (g : Nat → Nat) (script : Nat → AsstMsg)
    (fuel i : Nat) (st : LoopState) (h : goodBatch now g (script i)) :
    chatLoop now g script (fuel + 1) i st =
      chatLoop now g script fuel (i + 1) (stepState now g (script i) st) := by
  obtain ⟨hne, hok⟩ := h
  rw [chatLoop]
  cases hcalls : (script i).tool_calls with
  | nil => exact absurd hcalls hne
  | cons tc rest =>
    have hexec := execBatch_ok now g (tc :: rest)
      { conv := (st.conv ++ [assistantWithCalls (script i)])
        trace := st.trace
        calls := st.calls + 1 }
      (fun tc' h' => hok tc' (hcalls ▸ h'))
    simp only [hexec]
    congr 1
    simp [stepState, hcalls]

theorem chatLoop_advance (now : Int) (g : Nat → Nat) (script : Nat → AsstMsg)
    (k fuel i : Nat) (st : LoopState) (hk : k ≤ fuel)
    (h : ∀ j, j < k → goodBatch now g (script (i + j))) :
    chatLoop now g script fuel i st =
      chatLoop now g script (fuel - k) (i + k)
        (runBatches now g script i k st) := by
  induction k generalizing fuel i st with
  | zero => simp [runBatches]
  | succ k ih =>
    obtain ⟨fuel', rfl⟩ : ∃ m, fuel = m + 1 :=
      ⟨fuel - 1, by omega⟩
    rw [chatLoop_step_good now g script fuel' i st (by simpa using h 0 (by omega))]
    rw [ih fuel' (i + 1) _ (by omega)
      (fun j hj => by
        have := h (j + 1) (by omega)
        simpa [Nat.add_assoc, Nat.add_comm 1 j] using this)]
    have h1 : fuel' + 1 - (k + 1) = fuel' - k := by omega
    have h2 : i + 1 + k = i + (k + 1) := by omega
    rw [h1, h2, runBatches]

theorem runBatches_conv (now : Int) (g : Nat → Nat) (script : Nat → AsstMsg)
    (k i : Nat) (st : LoopState) :
    (runBatches now g script i k st).conv =
      st.conv ++ (List.range' i k).flatMap (fun j =>
        assistantWithCalls (script j) ::
          batchToolMessages now g (script j).tool_calls) := by
  induction k generalizing i st with
  | zero => simp [runBatches]
  | succ k ih =>
    rw [runBatches, ih, List.range'_succ]
    simp [stepState]

theorem runBatches_trace (now : Int) (g : Nat → Nat) (script : Nat → AsstMsg)
    (k i : Nat) (st : LoopState) :
    (runBatches now g script i k st).trace =
      st.trace ++ (List.range' i k).flatMap (fun j =>
        batchTrace now g (script j).tool_calls) := by
  induction k generalizing i st with
  | zero => simp [runBatches]
  | succ k ih =>
    rw [runBatches, ih, List.range'_succ]
    simp [stepState]

theorem runBatches_calls (now : Int) (g : Nat → Nat) (script : Nat → AsstMsg)
    (k i : Nat) (st : LoopState) :
    (runBatches now g script i k st).calls = st.calls + k := by
  induction k generalizing i st with
  | zero => simp [runBatches]
  | succ k ih =>
    rw [runBatches, ih]
    simp [stepState]
    omega

theorem chatLoop_calls_le (now : Int) (g : Nat → Nat) (script : Nat → AsstMsg)
    (fuel i : Nat) (st : LoopState) :
    (chatLoop now g script fuel i st).2.calls ≤ st.calls + fuel := by
  induction fuel generalizing i st with
  | zero => simp [chatLoop]
  | succ fuel ih =>
    rw [chatLoop]
    cases hcalls : (script i).tool_calls with
    | nil => simp
    | cons tc rest =>
      simp only []
      cases hexec : execBatch now g
        { conv := (st.conv ++ [assistantWithCalls (script i)])
          trace := st.trace
          calls := st.calls + 1 } (tc :: rest) with
      | mk st3 err =>
        have hc : st3.calls = st.calls + 1 := by
          have := execBatch_calls now g (tc :: rest)
            { conv := (st.conv ++ [assistantWithCalls (script i)])
              trace := st.trace
              calls := st.calls + 1 }
          rw [hexec] at this
          simpa using this
        cases err with
        | none =>
          have := ih (i + 1) st3
          simp only []
          omega
        | some e => simp; omega

theorem chatLoop_conv_prefix (now : Int) (g : Nat → Nat)
    (script : Nat → AsstMsg) (fuel i : Nat) (st : LoopState) :
    ∃ rest, (chatLoop now g script fuel i st).2.conv = st.conv ++ rest := by
  induction fuel generalizing i st with
  | zero => exact ⟨[], by simp [chatLoop]⟩
  | succ fuel ih =>
    rw [chatLoop]
    cases hcalls : (script i).tool_calls with
    | nil => exact ⟨[finalAssistant (pyOrStr (script i).content fallbackReply)], by simp⟩
    | cons tc rest =>
      simp only []
      cases hexec : execBatch now g
        { conv := (st.conv ++ [assistantWithCalls (script i)])
          trace := st.trace
          calls := st.calls + 1 } (tc :: rest) with
      | mk st3 err =>
        have hpre : ∃ r, st3.conv = st.conv ++ [assistantWithCalls (script i)] ++ r := by
          have := execBatch_conv_prefix now g (tc :: rest)
            { conv := (st.conv ++ [assistantWithCalls (script i)])
              trace := st.trace
              calls := st.calls + 1 }
          rw [hexec] at this
          simpa using this
        obtain ⟨r, hr⟩ := hpre
        cases err with
        | none =>
          obtain ⟨r2, hr2⟩ := ih (i + 1) st3
          exact ⟨[assistantWithCalls (script i)] ++ r ++ r2, by
            simp only [hr2, hr]; simp⟩
        | some e =>
          exact ⟨[assistantWithCalls (script i)] ++ r, by simp [hr]⟩

theorem storeSet_lookup (st : Store) (k : String) (v : List Message) :
    (storeSet st k v).lookup k = some v := by
  simp [storeSet, List.lookup]

theorem finishChat_calls (store : Store) (cid : String)
    (p : LoopOutcome × LoopState) : (finishChat store cid p).callsMade = p.2.calls := by
  obtain ⟨o, st⟩ := p
  cases o <;> rfl

theorem finishChat_store (store : Store) (cid : String)
    (p : LoopOutcome × LoopState) :
    (finishChat store cid p).store = storeSet store cid p.2.conv := by
  obtain ⟨o, st⟩ := p
  cases o <;> rfl

theorem execBatch_fail (now : Int) (g : Nat → Nat) (pre : List ToolCallReq)
    (bad : ToolCallReq) (rest : List ToolCallReq) (st : LoopState) (e : PyError)
    (hpre : ∀ tc ∈ pre, callOk now g tc = true)
    (hbad : runToolCall now g bad = .error e) :
    execBatch now g st (pre ++ bad :: rest) =
      ({ conv := st.conv ++ batchToolMessages now g pre
         trace := st.trace ++ batchTrace now g pre
         calls := st.calls }, some e) := by
  induction pre generalizing st with
  | nil =>
    simp only [List.nil_append, execBatch, hbad, batchToolMessages, batchTrace,
      List.map_nil, List.append_nil]
  | cons tc pre ih =>
    have htc : callOk now g tc = true := hpre tc (by simp)
    simp only [List.cons_append, execBatch, runToolCall_eq_of_ok now g tc htc,
      List.append_eq]
    rw [ih _ (fun tc' h' => hpre tc' (by simp [h']))]
    simp [batchToolMessages, batchTrace]

/-! ## Claim theorems: mock diagnostics backend -/

/-- C6: `get_service_health(service, region)` reports status `"degraded"`
exactly for the pair `("Azure SQL", "eastus")`, and then carries exactly
one active incident with its id, title, status, description and timestamps;
every other pair reports `"healthy"` with an empty incident list. -/
theorem serviceHealth_special_case (now : Int) (service region : String) :
    ((get_service_health now service region).status = "degraded" ↔
      service = "Azure SQL" ∧ region = "eastus") ∧
    ((get_service_health now service region).status = "healthy" ↔
      ¬(service = "Azure SQL" ∧ region = "eastus")) ∧
    (get_service_health now service region).active_incidents =
      (if service = "Azure SQL" ∧ region = "eastus" then
        [{ incident_id := "SQL-2024-0215"
           title := "Intermittent connectivity issues"
           status := "investigating"
           start_time := now - 2 * 60
           description := "Some customers may experience intermittent connection timeouts to Azure SQL databases in East US region."
           impacted_services := ["Azure SQL Database", "SQL Managed Instance"]
           updates := [
             { time := now - 30
               message := "Engineering team has identified the root cause and is implementing a fix." }] }]
       else []) := by
  by_cases h : service = "Azure SQL" ∧ region = "eastus" <;>
    simp [get_service_health, h]

/-- C7: for every outcome of the injected random jitter (every draw
sequence `g`) and every time range, the designated high-CPU resource
`web-app-prod` reports `data.cpu.current_percent ≥ 75` with status
`"warning"` or `"critical"`, and the designated high-latency resource
`sql-db-main` reports `data.latency.p50_ms ≥ 500` with status
`"critical"`. -/
theorem metrics_thresholds (now : Int) (g : Nat → Nat) (tr : String) :
    (∃ c, (get_system_metrics now g "web-app-prod" "cpu" tr).data.cpu = some c ∧
      75 ≤ c.current_percent ∧ (c.status = "warning" ∨ c.status = "critical")) ∧
    (∃ l, (get_system_metrics now g "sql-db-main" "latency" tr).data.latency = some l ∧
      500 ≤ l.p50_ms ∧ l.status = "critical") := by
  refine ⟨⟨_, rfl, ?_, Or.inr rfl⟩, ⟨_, rfl, by norm_num, rfl⟩⟩
  show (75 : ℤ) ≤ 85 + randint (-5) 10 g 0
  simp only [randint]
  have : (0 : ℤ) ≤ Int.ofNat (g 0 % (((10 : ℤ) - (-5)).toNat + 1)) :=
    Int.ofNat_nonneg _
  omega

/-- C8: per-handler policy for a resource name absent from the mock
inventory: `get_system_config` returns a non-error generic configuration
block with status `"running"` and sku `"Standard"`; `check_dependencies`
returns empty upstream/downstream lists with no `error` key; and
`get_resource_details` returns a mapping with both an `error` and a
`suggestion` key. -/
theorem unknown_resource_policy (now : Int) (name rtype : String)
    (h : findResource name = none) :
    ((get_system_config name rtype).getField "configuration" =
        some (.obj [("status", .str "running"), ("sku", .str "Standard"),
          ("note", .str "Generic configuration - resource not found in detailed inventory")]) ∧
      (get_system_config name rtype).getField "error" = none) ∧
    ((check_dependencies name).getField "upstream_dependencies" = some (.arr []) ∧
      (check_dependencies name).getField "downstream_dependencies" = some (.arr []) ∧
      (check_dependencies name).getField "error" = none) ∧
    ((get_resource_details now name).getField "error" =
        some (.str "Resource not found in inventory") ∧
      (get_resource_details now name).getField "suggestion" =
        some (.str "Check resource name spelling or verify the resource exists")) := by
  refine ⟨⟨?_, ?_⟩, ⟨?_, ?_, ?_⟩, ?_, ?_⟩ <;>
    simp [get_system_config, check_dependencies, get_resource_details, h,
      Json.getField, jsonLookup]

/-- C8 witness at the concrete unknown resource "no-such-resource". -/
theorem unknown_resource_policy_witness :
    findResource "no-such-resource" = none ∧
    (((get_system_config "no-such-resource" "container_app").getField "configuration" =
        some (.obj [("status", .str "running"), ("sku", .str "Standard"),
          ("note", .str "Generic configuration - resource not found in detailed inventory")]) ∧
      (get_system_config "no-such-resource" "container_app").getField "error" = none) ∧
    ((check_dependencies "no-such-resource").getField "upstream_dependencies" = some (.arr []) ∧
      (check_dependencies "no-such-resource").getField "downstream_dependencies" = some (.arr []) ∧
      (check_dependencies "no-such-resource").getField "error" = none) ∧
    ((get_resource_details 0 "no-such-resource").getField "error" =
        some (.str "Resource not found in inventory") ∧
      (get_resource_details 0 "no-such-resource").getField "suggestion" =
        some (.str "Check resource name spelling or verify the resource exists"))) :=
  ⟨rfl, unknown_resource_policy 0 "no-such-resource" "container_app" rfl⟩

/-- C9: for every resource name, severity, non-negative limit and outcome
of the injected randomness, `get_recent_logs` returns at most `limit`
entries, sorted by timestamp in non-increasing order. -/
theorem logs_limit_and_sorted (now : Int) (g : Nat → Nat)
    (resource severity : String) (limit : Int) (h : 0 ≤ limit) :
    ((get_recent_logs now g resource severity limit).logs.length : Int) ≤ limit ∧
    List.Sorted logAfter (get_recent_logs now g resource severity limit).logs := by
  have key : ∀ l : List LogEntry,
      ((pySliceTo (List.insertionSort logAfter l) limit).length : Int) ≤ limit ∧
      List.Sorted logAfter (pySliceTo (List.insertionSort logAfter l) limit) := by
    intro l
    rw [pySliceTo, if_pos h]
    constructor
    · have hlen := List.length_take_le limit.toNat (List.insertionSort logAfter l)
      omega
    · exact List.Pairwise.sublist (List.take_sublist _ _)
        (List.sorted_insertionSort logAfter l)
  exact key _

/-- C9 witness at concrete inputs (`limit = 5`). -/
theorem logs_limit_and_sorted_witness :
    (0 : Int) ≤ 5 ∧
    (((get_recent_logs 0 (fun i => i) "web-app-prod" "all" 5).logs.length : Int) ≤ 5 ∧
      List.Sorted logAfter (get_recent_logs 0 (fun i => i) "web-app-prod" "all" 5).logs) :=
  ⟨by norm_num, logs_limit_and_sorted 0 (fun i => i) "web-app-prod" "all" 5 (by norm_num)⟩

/-- C10: every handler that returns a count keeps it equal to the length of
the list it counts: `get_recent_logs.count = len(logs)`,
`get_recent_changes.change_count = len(changes)`, and for every resource
present in the inventory `check_dependencies` returns `upstream_count` and
`downstream_count` equal to the lengths of the returned dependency lists. -/
theorem counts_match_lists :
    (∀ (now : Int) (g : Nat → Nat) (r sev : String) (lim : Int),
      (get_recent_logs now g r sev lim).count =
        (get_recent_logs now g r sev lim).logs.length) ∧
    (∀ (now : Int) (g : Nat → Nat) (r : String) (days : Int),
      (get_recent_changes now g r days).change_count =
        (get_recent_changes now g r days).changes.length) ∧
    (∀ name : String, (findResource name).isSome = true →
      ∃ up down : List Json,
        (check_dependencies name).getField "upstream_dependencies" = some (.arr up) ∧
        (check_dependencies name).getField "upstream_count" = some (.num up.length) ∧
        (check_dependencies name).getField "downstream_dependencies" = some (.arr down) ∧
        (check_dependencies name).getField "downstream_count" = some (.num down.length)) := by
  refine ⟨fun now g r sev lim => rfl, fun now g r days => rfl, fun name h => ?_⟩
  obtain ⟨res, hres⟩ := Option.isSome_iff_exists.mp h
  refine ⟨res.upstream.map .str, res.downstream.map .str, ?_, ?_, ?_, ?_⟩ <;>
    simp [check_dependencies, hres, Json.getField, jsonLookup]

/-- C10 witness at the concrete inventory resource "web-app-prod". -/
theorem counts_match_lists_witness :
    ((get_recent_logs 0 (fun i => i) "web-app-prod" "all" 20).count =
      (get_recent_logs 0 (fun i => i) "web-app-prod" "all" 20).logs.length) ∧
    ((get_recent_changes 0 (fun i => i) "web-app-prod" 7).change_count =
      (get_recent_changes 0 (fun i => i) "web-app-prod" 7).changes.length) ∧
    ((findResource "web-app-prod").isSome = true ∧
      ∃ up down : List Json,
        (check_dependencies "web-app-prod").getField "upstream_dependencies" = some (.arr up) ∧
        (check_dependencies "web-app-prod").getField "upstream_count" = some (.num up.length) ∧
        (check_dependencies "web-app-prod").getField "downstream_dependencies" = some (.arr down) ∧
        (check_dependencies "web-app-prod").getField "downstream_count" = some (.num down.length)) :=
  ⟨counts_match_lists.1 0 (fun i => i) "web-app-prod" "all" 20,
   counts_match_lists.2.1 0 (fun i => i) "web-app-prod" 7,
   rfl, counts_match_lists.2.2 "web-app-prod" rfl⟩

/-! ## Claim theorems: the agentic loop -/

/-- C2 (amended): for every model-response script, `chat` performs at most
10 model calls; and when every iteration requests tool calls that all
execute without raising, it returns (without raising) the degraded budget
reply together with the tool trace accumulated over exactly the 10
dispatch batches. (Without the dispatch-success condition the degraded
reply is not guaranteed: see the counterexample below.) -/
theorem chat_iteration_budget (now : Int) (g : Nat → Nat)
    (script : Nat → AsstMsg) (store : Store) (req : ChatRequest) :
    (chat now g script store req).callsMade ≤ 10 ∧
    ((∀ i, i < 10 → goodBatch now g (script i)) →
      (chat now g script store req).result =
        .ok { response := budgetReply
              conversation_id := chatCid now req
              tool_calls := (List.range' 0 10).flatMap
                (fun j => batchTrace now g (script j).tool_calls) }) := by
  constructor
  · rw [chat, finishChat_calls]
    have hle := chatLoop_calls_le now g script 10 0 (chatInit now store req)
    have h0 : (chatInit now store req).calls = 0 := rfl
    omega
  · intro hgood
    have hadv := chatLoop_advance now g script 10 10 0 (chatInit now store req)
      (le_refl 10) (fun j hj => by simpa using hgood j hj)
    rw [chat, hadv]
    rw [show (10 : Nat) - 10 = 0 from rfl, chatLoop]
    simp only [finishChat]
    congr 1
    rw [runBatches_trace]
    have h0 : (chatInit now store req).trace = [] := rfl
    rw [h0, List.nil_append]

/-- C2 witness: a concrete script that always requests one successfully
dispatching tool call exhausts the budget and returns the degraded reply. -/
theorem chat_iteration_budget_witness :
    (chat 0 (fun _ => 0)
      (fun _ => ⟨none, [⟨"c1", "get_service_health",
        .wellFormed (.obj [("service", .str "Storage")])⟩]⟩)
      [] ⟨"help", none, none⟩).callsMade ≤ 10 ∧
    (chat 0 (fun _ => 0)
      (fun _ => ⟨none, [⟨"c1", "get_service_health",
        .wellFormed (.obj [("service", .str "Storage")])⟩]⟩)
      [] ⟨"help", none, none⟩).result =
      .ok { response := budgetReply
            conversation_id := "conv_0"
            tool_calls := (List.range' 0 10).flatMap (fun _ =>
              batchTrace 0 (fun _ => 0) [⟨"c1", "get_service_health",
                .wellFormed (.obj [("service", .str "Storage")])⟩]) } := by
  have h := chat_iteration_budget 0 (fun _ => 0)
    (fun _ => ⟨none, [⟨"c1", "get_service_health",
      .wellFormed (.obj [("service", .str "Storage")])⟩]⟩)
    [] ⟨"help", none, none⟩
  refine ⟨h.1, ?_⟩
  have h2 := h.2 (fun i _ => ⟨by simp, by
    simp only [List.mem_singleton]
    rintro tc rfl
    rfl⟩)
  exact h2

/-- C2 counterexample: a script whose every response carries a tool
request — nine batches that dispatch fine, then a batch whose arguments
are malformed — performs all 10 model-call iterations yet does NOT return
the degraded budget reply: the 10th batch's dispatch raises and the turn
aborts as an HTTP 500, refuting the frozen claim's "returns a degraded
reply ... without raising" for this sequence of model responses. -/
theorem chat_iteration_budget_counterexample :
    (chat 0 (fun _ => 0)
      (fun i => if i = 9 then
          ⟨none, [⟨"b1", "get_recent_logs", .malformed "not json"⟩]⟩
        else
          ⟨none, [⟨"c1", "get_service_health",
            .wellFormed (.obj [("service", .str "Storage")])⟩]⟩)
      [] ⟨"hi", none, none⟩).callsMade = 10 ∧
    (∀ i : Nat, ((fun i => if i = 9 then
          AsstMsg.mk none [⟨"b1", "get_recent_logs", .malformed "not json"⟩]
        else
          ⟨none, [⟨"c1", "get_service_health",
            .wellFormed (.obj [("service", .str "Storage")])⟩]⟩) i).tool_calls ≠ []) ∧
    (chat 0 (fun _ => 0)
      (fun i => if i = 9 then
          ⟨none, [⟨"b1", "get_recent_logs", .malformed "not json"⟩]⟩
        else
          ⟨none, [⟨"c1", "get_service_health",
            .wellFormed (.obj [("service", .str "Storage")])⟩]⟩)
      [] ⟨"hi", none, none⟩).result = .error (.jsonDecode "not json") :=
  ⟨rfl,
   fun i => by by_cases h : i = 9 <;> simp [h],
   rfl⟩

/-- C4: on every run in which the model issues `n < 10` batches of
(successfully executing) tool requests and then a tool-request-free
response, the stored conversation is exactly the seeded prefix, then the
user message (with any supplied context on that same message), then, per
iteration, the assistant message carrying the requests followed by one
tool message per request in request order, then the final assistant
message; the returned trace is the concatenation of the per-batch traces.
In particular each tool message sits strictly after its batch's assistant
message and the tool messages of one batch keep request order. -/
theorem chat_causal_order (now : Int) (g : Nat → Nat) (script : Nat → AsstMsg)
    (store : Store) (req : ChatRequest) (n : Nat) (hn : n < 10)
    (hgood : ∀ j, j < n → goodBatch now g (script j))
    (hfin : (script n).tool_calls = []) :
    (chat now g script store req).result =
      .ok { response := pyOrStr (script n).content fallbackReply
            conversation_id := chatCid now req
            tool_calls := (List.range' 0 n).flatMap
              (fun j => batchTrace now g (script j).tool_calls) } ∧
    (chat now g script store req).store.lookup (chatCid now req) =
      some (initialConv store (chatCid now req) ++
        userMessageOf req ::
          ((List.range' 0 n).flatMap (fun j =>
            assistantWithCalls (script j) ::
              batchToolMessages now g (script j).tool_calls) ++
           [finalAssistant (pyOrStr (script n).content fallbackReply)])) := by
  have hadv := chatLoop_advance now g script n 10 0 (chatInit now store req)
    (by omega) (fun j hj => by simpa using hgood j hj)
  rw [Nat.zero_add] at hadv
  obtain ⟨m, hm⟩ : ∃ m, 10 - n = m + 1 := ⟨10 - n - 1, by omega⟩
  have hstep : chatLoop now g script (10 - n) n
      (runBatches now g script 0 n (chatInit now store req)) =
      (.final (pyOrStr (script n).content fallbackReply),
       { conv := (runBatches now g script 0 n (chatInit now store req)).conv ++
           [finalAssistant (pyOrStr (script n).content fallbackReply)]
         trace := (runBatches now g script 0 n (chatInit now store req)).trace
         calls := (runBatches now g script 0 n (chatInit now store req)).calls + 1 }) := by
    rw [hm]
    simp only [chatLoop, hfin]
  rw [chat, hadv, hstep]
  simp only [finishChat]
  constructor
  · congr 1
    rw [runBatches_trace]
    have h0 : (chatInit now store req).trace = [] := rfl
    rw [h0, List.nil_append]
  · rw [storeSet_lookup, runBatches_conv]
    have h0 : (chatInit now store req).conv =
        initialConv store (chatCid now req) ++ [userMessageOf req] := rfl
    rw [h0]
    simp [List.append_assoc]

/-- C4 witness: one batch with two requests (ids "a" then "b") followed by
a final content response produces exactly the ordered conversation
system → user → assistant-with-calls → tool "a" → tool "b" → final. -/
theorem chat_causal_order_witness :
    (chat 0 (fun _ => 0)
      (fun i => if i = 0 then
          ⟨none, [⟨"a", "get_service_health",
            .wellFormed (.obj [("service", .str "Storage")])⟩,
          ⟨"b", "check_dependencies",
            .wellFormed (.obj [("resource_name", .str "web-app-prod")])⟩]⟩
        else ⟨some "done", []⟩)
      [] ⟨"hi", none, none⟩).result =
      .ok { response := "done"
            conversation_id := "conv_0"
            tool_calls := (List.range' 0 1).flatMap (fun j =>
              batchTrace 0 (fun _ => 0)
                ((fun i : Nat => if i = 0 then
                    AsstMsg.mk none [⟨"a", "get_service_health",
                      .wellFormed (.obj [("service", .str "Storage")])⟩,
                    ⟨"b", "check_dependencies",
                      .wellFormed (.obj [("resource_name", .str "web-app-prod")])⟩]
                  else ⟨some "done", []⟩) j).tool_calls) } ∧
    (chat 0 (fun _ => 0)
      (fun i => if i = 0 then
          ⟨none, [⟨"a", "get_service_health",
            .wellFormed (.obj [("service", .str "Storage")])⟩,
          ⟨"b", "check_dependencies",
            .wellFormed (.obj [("resource_name", .str "web-app-prod")])⟩]⟩
        else ⟨some "done", []⟩)
      [] ⟨"hi", none, none⟩).store.lookup "conv_0" =
      some ([systemMessage] ++
        ⟨"user", .text "hi", none, none⟩ ::
          ((List.range' 0 1).flatMap (fun j =>
            assistantWithCalls ((fun i : Nat => if i = 0 then
                AsstMsg.mk none [⟨"a", "get_service_health",
                  .wellFormed (.obj [("service", .str "Storage")])⟩,
                ⟨"b", "check_dependencies",
                  .wellFormed (.obj [("resource_name", .str "web-app-prod")])⟩]
              else ⟨some "done", []⟩) j) ::
              batchToolMessages 0 (fun _ => 0)
                (((fun i : Nat => if i = 0 then
                    AsstMsg.mk none [⟨"a", "get_service_health",
                      .wellFormed (.obj [("service", .str "Storage")])⟩,
                    ⟨"b", "check_dependencies",
                      .wellFormed (.obj [("resource_name", .str "web-app-prod")])⟩]
                  else ⟨some "done", []⟩) j).tool_calls)) ++
           [finalAssistant "done"])) := by
  have h := chat_causal_order 0 (fun _ => 0)
    (fun i => if i = 0 then
        ⟨none, [⟨"a", "get_service_health",
          .wellFormed (.obj [("service", .str "Storage")])⟩,
        ⟨"b", "check_dependencies",
          .wellFormed (.obj [("resource_name", .str "web-app-prod")])⟩]⟩
      else ⟨some "done", []⟩)
    [] ⟨"hi", none, none⟩ 1 (by omega)
    (fun j hj => by
      have hj0 : j = 0 := by omega
      subst hj0
      refine ⟨fun hcon => List.cons_ne_nil _ _ hcon, fun tc htc => ?_⟩
      have htc' : tc ∈ [(⟨"a", "get_service_health",
          .wellFormed (.obj [("service", .str "Storage")])⟩ : ToolCallReq),
        ⟨"b", "check_dependencies",
          .wellFormed (.obj [("resource_name", .str "web-app-prod")])⟩] := htc
      simp only [List.mem_cons, List.not_mem_nil, or_false] at htc'
      rcases htc' with rfl | rfl <;> rfl)
    rfl
  exact h

/-- C3 (amended): the turn runs under the id
`request.conversation_id or fresh`: a given non-empty id is adopted as-is,
known or not; a fresh id is minted only when none (or an empty one) is
given. Whatever id results, an id not present in the store is seeded with
exactly one system message carrying the operating instructions, followed
immediately by the user message; a known id's conversation is reused and
extended after its existing messages. -/
theorem conversation_resolution (now : Int) (g : Nat → Nat)
    (script : Nat → AsstMsg) (store : Store) (req : ChatRequest) :
    (∀ resp, (chat now g script store req).result = .ok resp →
      resp.conversation_id = chatCid now req) ∧
    (store.lookup (chatCid now req) = none →
      ∃ rest, (chat now g script store req).store.lookup (chatCid now req) =
        some (systemMessage :: userMessageOf req :: rest)) ∧
    (∀ old, store.lookup (chatCid now req) = some old →
      ∃ rest, (chat now g script store req).store.lookup (chatCid now req) =
        some (old ++ userMessageOf req :: rest)) := by
  refine ⟨?_, ?_, ?_⟩
  · intro resp h
    rw [chat] at h
    rcases hp : chatLoop now g script 10 0 (chatInit now store req) with ⟨o, st⟩
    rw [hp] at h
    cases o with
    | final r =>
      simp only [finishChat, Except.ok.injEq] at h
      rw [← h]
    | budget =>
      simp only [finishChat, Except.ok.injEq] at h
      rw [← h]
    | raised e => simp [finishChat] at h
  · intro hnone
    rw [chat, finishChat_store, storeSet_lookup]
    obtain ⟨rest, hrest⟩ :=
      chatLoop_conv_prefix now g script 10 0 (chatInit now store req)
    rw [hrest]
    refine ⟨rest, ?_⟩
    have h0 : (chatInit now store req).conv =
        initialConv store (chatCid now req) ++ [userMessageOf req] := rfl
    rw [h0]
    simp [initialConv, hnone]
  · intro old hold
    rw [chat, finishChat_store, storeSet_lookup]
    obtain ⟨rest, hrest⟩ :=
      chatLoop_conv_prefix now g script 10 0 (chatInit now store req)
    rw [hrest]
    refine ⟨rest, ?_⟩
    have h0 : (chatInit now store req).conv =
        initialConv store (chatCid now req) ++ [userMessageOf req] := rfl
    rw [h0]
    simp [initialConv, hold]

/-- C3 counterexample: with an empty store and the given (hence unknown)
id "abc", the turn runs under "abc" itself — no fresh identifier is
minted: the fresh id "conv_0" is absent from the resulting store while
"abc" was adopted and seeded. -/
theorem conversation_resolution_counterexample :
    (chat 0 (fun _ => 0) (fun _ => ⟨some "done", []⟩) []
      ⟨"hello", some "abc", none⟩).result =
      .ok { response := "done", conversation_id := "abc", tool_calls := [] } ∧
    (chat 0 (fun _ => 0) (fun _ => ⟨some "done", []⟩) []
      ⟨"hello", some "abc", none⟩).store.lookup "abc" =
      some [systemMessage, ⟨"user", .text "hello", none, none⟩,
        finalAssistant "done"] ∧
    (chat 0 (fun _ => 0) (fun _ => ⟨some "done", []⟩) []
      ⟨"hello", some "abc", none⟩).store.lookup "conv_0" = none := by
  refine ⟨rfl, rfl, rfl⟩

/-- C3 witness: with no id supplied, a fresh id is minted and seeded with
exactly one system message before the user message. -/
theorem conversation_resolution_witness :
    (∀ resp, (chat 0 (fun _ => 0) (fun _ => ⟨some "done", []⟩) []
        ⟨"hello", none, none⟩).result = .ok resp →
      resp.conversation_id = chatCid 0 ⟨"hello", none, none⟩) ∧
    (([] : Store).lookup (chatCid 0 ⟨"hello", none, none⟩) = none ∧
      ∃ rest, (chat 0 (fun _ => 0) (fun _ => ⟨some "done", []⟩) []
          ⟨"hello", none, none⟩).store.lookup (chatCid 0 ⟨"hello", none, none⟩) =
        some (systemMessage :: userMessageOf ⟨"hello", none, none⟩ :: rest)) :=
  ⟨(conversation_resolution 0 (fun _ => 0) (fun _ => ⟨some "done", []⟩) []
      ⟨"hello", none, none⟩).1,
   rfl,
   (conversation_resolution 0 (fun _ => 0) (fun _ => ⟨some "done", []⟩) []
      ⟨"hello", none, none⟩).2.1 rfl⟩

/-- C1 counterexample: a batch whose first tool call carries unparsable
arguments (followed by a perfectly good call) is NOT converted into an
error-shaped tool message: the exception aborts the whole turn (HTTP 500),
the good call's result is never delivered, and the stored conversation
ends at the assistant message with no tool message at all. -/
theorem tool_failure_counterexample :
    (chat 0 (fun _ => 0)
      (fun _ => ⟨none, [⟨"call_1", "get_system_config", .malformed "not json"⟩,
        ⟨"call_2", "check_dependencies",
          .wellFormed (.obj [("resource_name", .str "web-app-prod")])⟩]⟩)
      [] ⟨"hi", none, none⟩).result = .error (.jsonDecode "not json") ∧
    (chat 0 (fun _ => 0)
      (fun _ => ⟨none, [⟨"call_1", "get_system_config", .malformed "not json"⟩,
        ⟨"call_2", "check_dependencies",
          .wellFormed (.obj [("resource_name", .str "web-app-prod")])⟩]⟩)
      [] ⟨"hi", none, none⟩).store.lookup "conv_0" =
      some [systemMessage, ⟨"user", .text "hi", none, none⟩,
        assistantWithCalls ⟨none, [⟨"call_1", "get_system_config", .malformed "not json"⟩,
          ⟨"call_2", "check_dependencies",
            .wellFormed (.obj [("resource_name", .str "web-app-prod")])⟩]⟩] :=
  ⟨rfl, rfl⟩

/-- C1 (amended): a tool-call failure inside an iteration (arguments that
fail to parse, or a handler call that raises) is NOT caught inside the
loop: after `i` successful batches, the first failing call of batch `i`
aborts the whole turn with that exception (an HTTP 500); the calls before
it in the batch contribute their tool messages, but neither the failing
call nor the remaining calls of the batch yield any message, and the loop
does not continue. Only an unknown tool name is converted to an
error-shaped result. -/
theorem tool_failure_aborts (now : Int) (g : Nat → Nat) (script : Nat → AsstMsg)
    (store : Store) (req : ChatRequest) (i : Nat) (hi : i < 10)
    (hgood : ∀ j, j < i → goodBatch now g (script j))
    (pre rest : List ToolCallReq) (bad : ToolCallReq) (e : PyError)
    (hbatch : (script i).tool_calls = pre ++ bad :: rest)
    (hpre : ∀ tc ∈ pre, callOk now g tc = true)
    (hbad : runToolCall now g bad = .error e) :
    (chat now g script store req).result = .error e ∧
    (chat now g script store req).store.lookup (chatCid now req) =
      some ((chatInit now store req).conv ++
        ((List.range' 0 i).flatMap (fun j =>
          assistantWithCalls (script j) ::
            batchToolMessages now g (script j).tool_calls) ++
         assistantWithCalls (script i) :: batchToolMessages now g pre)) := by
  have hadv := chatLoop_advance now g script i 10 0 (chatInit now store req)
    (by omega) (fun j hj => by simpa using hgood j hj)
  rw [Nat.zero_add] at hadv
  obtain ⟨m, hm⟩ : ∃ m, 10 - i = m + 1 := ⟨10 - i - 1, by omega⟩
  have hstep : chatLoop now g script (10 - i) i
      (runBatches now g script 0 i (chatInit now store req)) =
      (.raised e,
       { conv := (runBatches now g script 0 i (chatInit now store req)).conv ++
           assistantWithCalls (script i) :: batchToolMessages now g pre
         trace := (runBatches now g script 0 i (chatInit now store req)).trace ++
           batchTrace now g pre
         calls := (runBatches now g script 0 i (chatInit now store req)).calls + 1 }) := by
    rw [hm]
    cases hc : (script i).tool_calls with
    | nil => rw [hc] at hbatch; simp at hbatch
    | cons tc rest' =>
      rw [hc] at hbatch
      simp only [chatLoop, hc]
      rw [hbatch, execBatch_fail now g pre bad rest _ e hpre hbad]
      simp [List.append_assoc]
  rw [chat, hadv, hstep]
  simp only [finishChat]
  refine ⟨by simp, ?_⟩
  rw [storeSet_lookup, runBatches_conv]
  simp [List.append_assoc]

/-- C1 (amended) witness: after one good call of the same batch, the
failing call aborts the turn; only the good call's tool message exists. -/
theorem tool_failure_aborts_witness :
    (chat 0 (fun _ => 0)
      (fun _ => ⟨none, [⟨"g1", "check_dependencies",
          .wellFormed (.obj [("resource_name", .str "web-app-prod")])⟩,
        ⟨"b1", "get_recent_logs", .malformed "not json"⟩,
        ⟨"t1", "get_service_health",
          .wellFormed (.obj [("service", .str "Storage")])⟩]⟩)
      [] ⟨"hi", none, none⟩).result = .error (.jsonDecode "not json") ∧
    (chat 0 (fun _ => 0)
      (fun _ => ⟨none, [⟨"g1", "check_dependencies",
          .wellFormed (.obj [("resource_name", .str "web-app-prod")])⟩,
        ⟨"b1", "get_recent_logs", .malformed "not json"⟩,
        ⟨"t1", "get_service_health",
          .wellFormed (.obj [("service", .str "Storage")])⟩]⟩)
      [] ⟨"hi", none, none⟩).store.lookup
        (chatCid 0 ⟨"hi", none, none⟩) =
      some ((chatInit 0 [] ⟨"hi", none, none⟩).conv ++
        ((List.range' 0 0).flatMap (fun j =>
          assistantWithCalls ((fun _ : Nat => AsstMsg.mk none
              [⟨"g1", "check_dependencies",
                .wellFormed (.obj [("resource_name", .str "web-app-prod")])⟩,
              ⟨"b1", "get_recent_logs", .malformed "not json"⟩,
              ⟨"t1", "get_service_health",
                .wellFormed (.obj [("service", .str "Storage")])⟩]) j) ::
            batchToolMessages 0 (fun _ => 0) ((fun _ : Nat => AsstMsg.mk none
              [⟨"g1", "check_dependencies",
                .wellFormed (.obj [("resource_name", .str "web-app-prod")])⟩,
              ⟨"b1", "get_recent_logs", .malformed "not json"⟩,
              ⟨"t1", "get_service_health",
                .wellFormed (.obj [("service", .str "Storage")])⟩]) j).tool_calls) ++
         assistantWithCalls (AsstMsg.mk none
            [⟨"g1", "check_dependencies",
              .wellFormed (.obj [("resource_name", .str "web-app-prod")])⟩,
            ⟨"b1", "get_recent_logs", .malformed "not json"⟩,
            ⟨"t1", "get_service_health",
              .wellFormed (.obj [("service", .str "Storage")])⟩]) ::
          batchToolMessages 0 (fun _ => 0)
            [⟨"g1", "check_dependencies",
              .wellFormed (.obj [("resource_name", .str "web-app-prod")])⟩])) :=
  tool_failure_aborts 0 (fun _ => 0)
    (fun _ => ⟨none, [⟨"g1", "check_dependencies",
        .wellFormed (.obj [("resource_name", .str "web-app-prod")])⟩,
      ⟨"b1", "get_recent_logs", .malformed "not json"⟩,
      ⟨"t1", "get_service_health",
        .wellFormed (.obj [("service", .str "Storage")])⟩]⟩)
    [] ⟨"hi", none, none⟩ 0 (by omega)
    (fun j hj => absurd hj (Nat.not_lt_zero j))
    [⟨"g1", "check_dependencies",
      .wellFormed (.obj [("resource_name", .str "web-app-prod")])⟩]
    [⟨"t1", "get_service_health", .wellFormed (.obj [("service", .str "Storage")])⟩]
    ⟨"b1", "get_recent_logs", .malformed "not json"⟩
    (.jsonDecode "not json") rfl
    (fun tc htc => by
      have htc' : tc = ⟨"g1", "check_dependencies",
          .wellFormed (.obj [("resource_name", .str "web-app-prod")])⟩ := by
        simpa using htc
      subst htc'; rfl)
    rfl

/-- C5 counterexample: a ToolRequest with a name absent from the registry
but unparsable arguments does NOT yield the `Unknown tool` error result:
`json.loads` runs before the registry lookup, so the turn aborts with the
decode exception and no tool message is appended. -/
theorem unknown_tool_counterexample :
    (chat 0 (fun _ => 0)
      (fun _ => ⟨none, [⟨"c9", "nonexistent_tool", .malformed "oops"⟩]⟩)
      [] ⟨"hi", none, none⟩).result = .error (.jsonDecode "oops") ∧
    (chat 0 (fun _ => 0)
      (fun _ => ⟨none, [⟨"c9", "nonexistent_tool", .malformed "oops"⟩]⟩)
      [] ⟨"hi", none, none⟩).store.lookup "conv_0" =
      some [systemMessage, ⟨"user", .text "hi", none, none⟩,
        assistantWithCalls ⟨none, [⟨"c9", "nonexistent_tool", .malformed "oops"⟩]⟩] :=
  ⟨rfl, rfl⟩

/-- C5 (amended): for every ToolRequest whose tool name is absent from the
registry and whose arguments parse as a JSON object, dispatch yields
`{error: "Unknown tool: <name>"}` without raising, the loop appends it as
a normal tool message and trace entry, and continues to the next
iteration. -/
theorem unknown_tool_recovered (now : Int) (g : Nat → Nat) (tc : ToolCallReq)
    (fields : List (String × Json)) (hname : tc.name ∉ registryNames)
    (hargs : tc.arguments = .wellFormed (.obj fields)) :
    runToolCall now g tc = .ok (.obj fields, unknownToolResult tc.name) ∧
    (∀ (script : Nat → AsstMsg) (fuel i : Nat) (st : LoopState)
      (c : Option String), script i = ⟨c, [tc]⟩ →
      chatLoop now g script (fuel + 1) i st =
        chatLoop now g script fuel (i + 1)
          { conv := st.conv ++ [assistantWithCalls ⟨c, [tc]⟩,
              toolMessage tc.id (unknownToolResult tc.name)]
            trace := st.trace ++ [⟨tc.name, .obj fields, unknownToolResult tc.name⟩]
            calls := st.calls + 1 }) := by
  have h1 : runToolCall now g tc = .ok (.obj fields, unknownToolResult tc.name) := by
    simp only [runToolCall, hargs, parseArgs]
    rw [if_neg hname]
  refine ⟨h1, fun script fuel i st c hscript => ?_⟩
  have hgb : goodBatch now g (script i) := by
    rw [hscript]
    refine ⟨List.cons_ne_nil _ _, fun tc' htc' => ?_⟩
    have heq : tc' = tc := by simpa using htc'
    subst heq
    simp [callOk, h1]
  rw [chatLoop_step_good now g script fuel i st hgb, hscript]
  congr 1
  simp [stepState, batchToolMessages, batchTrace, callResult, callArgs, h1]

/-- C5 (amended) witness at a concrete unknown tool with object args. -/
theorem unknown_tool_recovered_witness :
    ("made_up_tool" : String) ∉ registryNames ∧
    runToolCall 0 (fun _ => 0) ⟨"id1", "made_up_tool", .wellFormed (.obj [])⟩ =
      .ok (.obj [], unknownToolResult "made_up_tool") ∧
    chatLoop 0 (fun _ => 0)
        (fun _ => ⟨none, [⟨"id1", "made_up_tool", .wellFormed (.obj [])⟩]⟩)
        (3 + 1) 0 ⟨[], [], 0⟩ =
      chatLoop 0 (fun _ => 0)
        (fun _ => ⟨none, [⟨"id1", "made_up_tool", .wellFormed (.obj [])⟩]⟩)
        3 (0 + 1)
        { conv := ([] : List Message) ++
            [assistantWithCalls ⟨none, [⟨"id1", "made_up_tool", .wellFormed (.obj [])⟩]⟩,
             toolMessage "id1" (unknownToolResult "made_up_tool")]
          trace := ([] : List TraceItem) ++
            [⟨"made_up_tool", .obj [], unknownToolResult "made_up_tool"⟩]
          calls := 0 + 1 } :=
  ⟨by decide,
   (unknown_tool_recovered 0 (fun _ => 0)
      ⟨"id1", "made_up_tool", .wellFormed (.obj [])⟩ [] (by decide) rfl).1,
   (unknown_tool_recovered 0 (fun _ => 0)
      ⟨"id1", "made_up_tool", .wellFormed (.obj [])⟩ [] (by decide) rfl).2
     (fun _ => ⟨none, [⟨"id1", "made_up_tool", .wellFormed (.obj [])⟩]⟩)
     3 0 ⟨[], [], 0⟩ none rfl⟩

end ITAdmin
